import Mathlib

/-!
Verification of the schema-definition and SQL-generation core of go-bold/bold.

The Go sources embedded here are `migrations/migrations.go` (blueprint,
column builder, index registration, foreign-key builder) and
`migrations/mysql.go` (the MySQL-family and PostgreSQL-family renderers and
the per-dialect schema operations).  Pure string-building code is embedded
as Lean functions on a `blueprint` record; the mutating builder methods
become explicit state-passing functions; statement execution against the
database handle becomes a fold over an injected handle function that can
fail, returning the ordered trace of executed statements together with the
first error.
-/

/-- Model of the dynamically typed values Go passes as `interface{}` default
values: the two shapes the renderers distinguish (strings, and the numeric
case represented by integers). -/
inductive GoValue where
  | vStr (s : String)
  | vInt (n : Int)
deriving Repr, DecidableEq

/-- Go `fmt.Sprintf("%v", v)` for the modelled value shapes: a string prints
verbatim, an integer prints in decimal. -/
def goFormatValue : GoValue → String
  | .vStr s => s
  | .vInt n => toString n

/-- Go `strings.Join(elems, sep)`: empty list gives the empty string,
otherwise the first element followed by `sep`-prefixed remaining elements. -/
def goJoin (elems : List String) (sep : String) : String :=
  match elems with
  | [] => ""
  | x :: xs => xs.foldl (fun acc e => acc ++ sep ++ e) x

/-- Helper for `strContains`: does `pat` occur as a contiguous run inside
the character list? -/
def strContainsAux (pat : List Char) : List Char → Bool
  | [] => pat.isEmpty
  | c :: cs => pat.isPrefixOf (c :: cs) || strContainsAux pat cs

/-- Go `strings.Contains(s, sub)`. -/
def strContains (s sub : String) : Bool :=
  strContainsAux sub.data s.data

/-- Go `strings.ReplaceAll(s, old, new)`, specialised to the way this code
base always calls it: `old` is a single-character string (the backtick), so
the replacement is a character-wise map. -/
def goReplaceAll (s old new : String) : String :=
  ⟨s.data.map (fun c => if old.data = [c] then new.data.headD c else c)⟩

/-- Helper for `goFields`: scans the characters, accumulating the current
token in reverse, emitting a token at each whitespace run boundary. -/
def goFieldsAux : List Char → List Char → List String
  | [], acc => if acc.isEmpty then [] else [⟨acc.reverse⟩]
  | c :: cs, acc =>
    if c.isWhitespace then
      if acc.isEmpty then goFieldsAux cs []
      else (⟨acc.reverse⟩ : String) :: goFieldsAux cs []
    else goFieldsAux cs (c :: acc)

/-- Go `strings.Fields(s)`: the whitespace-separated tokens of `s`, with no
empty tokens. -/
def goFields (s : String) : List String :=
  goFieldsAux s.data []

/-- The `Column` struct of `migrations.go` (lines 12-22).  Field names are
lowercased (`Name` becomes `name`, `Type` becomes `type`, and so on); the
`Default interface{}` field becomes `Option GoValue` with `none` for Go's
`nil`. -/
structure Column where
  name : String
  type : String
  length : Option Int
  nullable : Bool
  default : Option GoValue
  primary : Bool
  unique : Bool
  comment : String
  after : String
deriving Repr, DecidableEq

/-- The `blueprint` struct of `migrations.go` (lines 90-96) minus the `db`
handle, which only the schema operations use. -/
structure blueprint where
  tableName : String
  columns : List Column
  indexes : List String
  foreigns : List String
deriving Repr, DecidableEq

/-- `newBlueprint` (migrations.go lines 98-106). -/
def newBlueprint (tableName : String) : blueprint :=
  { tableName := tableName, columns := [], indexes := [], foreigns := [] }

/-- `blueprint.AddColumn` (migrations.go lines 108-118): appends a column
whose remaining fields are Go zero values.  The returned column-builder
handle is modelled separately by the `columnBuilder` functions below, which
act on the column they would mutate. -/
def blueprint.AddColumn (b : blueprint) (name columnType : String) : blueprint :=
  { b with columns := b.columns ++
      [{ name := name, type := columnType, length := none, nullable := false,
         default := none, primary := false, unique := false, comment := "", after := "" }] }

/-- `blueprint.String` (migrations.go lines 124-126); flat Lean name because
a declaration called `blueprint.String` would shadow the `String` type
inside the other `blueprint` definitions. -/
def blueprintStringColumn (b : blueprint) (name : String) (length : Int) : blueprint :=
  b.AddColumn name ("VARCHAR(" ++ toString length ++ ")")

/-- `blueprint.Integer` (migrations.go lines 132-134). -/
def blueprint.Integer (b : blueprint) (name : String) : blueprint :=
  b.AddColumn name "INT"

/-- `postgresqlBlueprint.Serial` (mysql.go, PostgreSQL part). -/
def postgresqlBlueprint.Serial (b : blueprint) (name : String) : blueprint :=
  b.AddColumn name "SERIAL"

/-- `blueprint.Index` (migrations.go lines 185-188). -/
def blueprint.Index (b : blueprint) (columns : List String) : blueprint :=
  let indexName := goJoin columns "_" ++ "_index"
  { b with indexes := b.indexes ++
      ["INDEX " ++ indexName ++ " (" ++ goJoin columns ", " ++ ")"] }

/-- `blueprint.UniqueIndex` (migrations.go lines 190-193). -/
def blueprint.UniqueIndex (b : blueprint) (columns : List String) : blueprint :=
  let indexName := goJoin columns "_" ++ "_unique"
  { b with indexes := b.indexes ++
      ["UNIQUE INDEX " ++ indexName ++ " (" ++ goJoin columns ", " ++ ")"] }

/-- `blueprint.Primary` (migrations.go lines 195-197). -/
def blueprint.Primary (b : blueprint) (columns : List String) : blueprint :=
  { b with indexes := b.indexes ++
      ["PRIMARY KEY (" ++ goJoin columns ", " ++ ")"] }

/-- `blueprint.FullTextIndex` (migrations.go lines 199-202). -/
def blueprint.FullTextIndex (b : blueprint) (columns : List String) : blueprint :=
  let indexName := goJoin columns "_" ++ "_fulltext"
  { b with indexes := b.indexes ++
      ["FULLTEXT INDEX " ++ indexName ++ " (" ++ goJoin columns ", " ++ ")"] }

/-- `columnBuilder.Nullable` (migrations.go lines 216-219): the mutation the
method performs on its target column. -/
def columnBuilder.Nullable (c : Column) : Column := { c with nullable := true }

/-- `columnBuilder.NotNullable` (migrations.go lines 221-224). -/
def columnBuilder.NotNullable (c : Column) : Column := { c with nullable := false }

/-- `columnBuilder.Default` (migrations.go lines 226-229). -/
def columnBuilder.Default (c : Column) (value : GoValue) : Column :=
  { c with default := some value }

/-- `columnBuilder.Unique` (migrations.go lines 231-234). -/
def columnBuilder.Unique (c : Column) : Column := { c with unique := true }

/-- `columnBuilder.Primary` (migrations.go lines 236-239). -/
def columnBuilder.Primary (c : Column) : Column := { c with primary := true }

/-- `columnBuilder.Comment` (migrations.go lines 241-244). -/
def columnBuilder.Comment (c : Column) (text : String) : Column :=
  { c with comment := text }

/-- `columnBuilder.After` (migrations.go lines 246-249). -/
def columnBuilder.After (c : Column) (column : String) : Column :=
  { c with after := column }

/-- The `foreignKeyBuilder` struct of `migrations.go` (lines 256-263)
without its back pointer to the blueprint; the builder methods below pass
the blueprint explicitly. -/
structure foreignKeyBuilder where
  localColumn : String
  foreignTable : String
  foreignColumn : String
  onDelete : String
  onUpdate : String
deriving Repr, DecidableEq

/-- `blueprint.Foreign` (migrations.go lines 204-209): a fresh builder bound
to the local column, paired with the unchanged blueprint. -/
def blueprint.Foreign (b : blueprint) (column : String) : foreignKeyBuilder × blueprint :=
  ({ localColumn := column, foreignTable := "", foreignColumn := "",
     onDelete := "", onUpdate := "" }, b)

/-- `foreignKeyBuilder.build` (migrations.go lines 289-308): a no-op while
the foreign table or the referenced column is still empty; otherwise joins
the parts with single spaces and appends the fragment to the blueprint's
foreign-key list. -/
def foreignKeyBuilder.build (f : foreignKeyBuilder) (b : blueprint) : blueprint :=
  if f.foreignTable = "" ∨ f.foreignColumn = "" then b
  else
    let parts := ["FOREIGN KEY (" ++ f.localColumn ++ ")",
                  "REFERENCES " ++ f.foreignTable ++ " (" ++ f.foreignColumn ++ ")"]
    let parts := if f.onDelete ≠ "" then parts ++ ["ON DELETE " ++ f.onDelete] else parts
    let parts := if f.onUpdate ≠ "" then parts ++ ["ON UPDATE " ++ f.onUpdate] else parts
    { b with foreigns := b.foreigns ++ [goJoin parts " "] }

/-- `foreignKeyBuilder.References` (migrations.go lines 265-268): records
the referenced column and does NOT call `build`. -/
def fkbReferences (s : foreignKeyBuilder × blueprint) (column : String) :
    foreignKeyBuilder × blueprint :=
  ({ s.1 with foreignColumn := column }, s.2)

/-- `foreignKeyBuilder.On` (migrations.go lines 283-287): records the
foreign table, then calls `build`. -/
def fkbOn (s : foreignKeyBuilder × blueprint) (table : String) :
    foreignKeyBuilder × blueprint :=
  let f := { s.1 with foreignTable := table }
  (f, f.build s.2)

/-- `foreignKeyBuilder.OnDelete` (migrations.go lines 271-275): records the
action, then calls `build`. -/
def fkbOnDelete (s : foreignKeyBuilder × blueprint) (action : String) :
    foreignKeyBuilder × blueprint :=
  let f := { s.1 with onDelete := action }
  (f, f.build s.2)

/-- `foreignKeyBuilder.OnUpdate` (migrations.go lines 277-281): records the
action, then calls `build`. -/
def fkbOnUpdate (s : foreignKeyBuilder × blueprint) (action : String) :
    foreignKeyBuilder × blueprint :=
  let f := { s.1 with onUpdate := action }
  (f, f.build s.2)

/-- One column clause of `mysqlBlueprint.toCreateSQL` (mysql.go lines
92-107): backtick-quoted name, type, then conditional NOT NULL, DEFAULT and
COMMENT suffixes, appended in that order. -/
def mysqlColumnSQL (column : Column) : String :=
  let columnSQL := "`" ++ column.name ++ "` " ++ column.type
  let columnSQL := if !column.nullable then columnSQL ++ " NOT NULL" else columnSQL
  let columnSQL :=
    match column.default with
    | some v => columnSQL ++ (" DEFAULT " ++ goFormatValue v)
    | none => columnSQL
  if column.comment ≠ "" then columnSQL ++ (" COMMENT \x27" ++ column.comment ++ "\x27")
  else columnSQL

/-- `mysqlBlueprint.toCreateSQL` (mysql.go lines 89-120): column clauses,
then index fragments, then foreign-key fragments, joined with
comma-newline-indent, wrapped in the CREATE TABLE envelope. -/
def mysqlToCreateSQL (bp : blueprint) : String :=
  let parts := bp.columns.map mysqlColumnSQL ++ bp.indexes ++ bp.foreigns
  "CREATE TABLE `" ++ bp.tableName ++ "` (\n  " ++ goJoin parts ",\n  " ++
    "\n) ENGINE=InnoDB DEFAULT CHARSET=utf8mb4 COLLATE=utf8mb4_unicode_ci"

/-- One ALTER statement of `mysqlBlueprint.toAlterSQL` for a column
(mysql.go lines 125-141): like the create clause but with AFTER instead of
COMMENT support. -/
def mysqlAlterColumnSQL (tableName : String) (column : Column) : String :=
  let columnSQL := "`" ++ column.name ++ "` " ++ column.type
  let columnSQL := if !column.nullable then columnSQL ++ " NOT NULL" else columnSQL
  let columnSQL :=
    match column.default with
    | some v => columnSQL ++ (" DEFAULT " ++ goFormatValue v)
    | none => columnSQL
  let columnSQL :=
    if column.after ≠ "" then columnSQL ++ (" AFTER `" ++ column.after ++ "`")
    else columnSQL
  "ALTER TABLE `" ++ tableName ++ "` ADD COLUMN " ++ columnSQL

/-- `mysqlBlueprint.toAlterSQL` (mysql.go lines 122-149): one ADD COLUMN
statement per column, then one ADD index-fragment statement per index; the
foreign-key list is never consulted. -/
def mysqlToAlterSQL (bp : blueprint) : List String :=
  bp.columns.map (mysqlAlterColumnSQL bp.tableName) ++
    bp.indexes.map (fun index => "ALTER TABLE `" ++ bp.tableName ++ "` ADD " ++ index)

/-- `postgresqlBlueprint.formatDefaultValue` (mysql.go lines 357-379):
strings are single-quoted through a chain of special cases that all produce
the same quoting; numbers print bare. -/
def formatDefaultValue : GoValue → String
  | .vStr v =>
    if v = "\x7b\x7d" then "\x27\x7b\x7d\x27"
    else if v = "[]" then "\x27[]\x27"
    else if v = "\x7buser\x7d" then "\x27\x7buser\x7d\x27"
    else if ("\x7b".data.isPrefixOf v.data && "\x7d".data.isSuffixOf v.data) then
      "\x27" ++ v ++ "\x27"
    else "\x27" ++ v ++ "\x27"
  | .vInt n => toString n

/-- One column clause of `postgresqlBlueprint.toCreateTableSQL` (mysql.go
lines 290-302): double-quoted name, type, NOT NULL only when the column is
not nullable AND its type does not contain "SERIAL", then the formatted
default. -/
def pgColumnSQL (column : Column) : String :=
  let columnSQL := "\"" ++ column.name ++ "\" " ++ column.type
  let columnSQL :=
    if !column.nullable && !strContains column.type "SERIAL" then columnSQL ++ " NOT NULL"
    else columnSQL
  match column.default with
  | some v => columnSQL ++ (" DEFAULT " ++ formatDefaultValue v)
  | none => columnSQL

/-- `postgresqlBlueprint.toCreateTableSQL` (mysql.go lines 287-306). -/
def pgToCreateTableSQL (bp : blueprint) : String :=
  "CREATE TABLE \"" ++ bp.tableName ++ "\" (\n  " ++
    goJoin (bp.columns.map pgColumnSQL) ",\n  " ++ "\n)"

/-- `postgresqlBlueprint.formatIndexSQL` (mysql.go lines 381-396): replace
backticks with double quotes; when the fragment contains "INDEX" but not
"CREATE" and has at least three whitespace tokens, rebuild it as a CREATE
INDEX statement whose name is the second token and whose column clause is
the remaining tokens rejoined with single spaces; otherwise return the
backtick-replaced fragment unchanged. -/
def formatIndexSQL (tableName : String) (index0 : String) : String :=
  let index := goReplaceAll index0 "`" "\""
  if strContains index "INDEX" && !strContains index "CREATE" then
    match goFields index with
    | _ :: indexName :: col0 :: cols =>
      "CREATE INDEX " ++ indexName ++ " ON \"" ++ tableName ++ "\" " ++
        goJoin (col0 :: cols) " "
    | _ => index
  else index

/-- `postgresqlBlueprint.toIndexSQL` (mysql.go lines 308-317). -/
def pgToIndexSQL (bp : blueprint) : List String :=
  bp.indexes.map (formatIndexSQL bp.tableName)

/-- `postgresqlBlueprint.formatForeignKeySQL` (mysql.go lines 398-407). -/
def formatForeignKeySQL (tableName : String) (foreign0 : String) : String :=
  let foreign := goReplaceAll foreign0 "`" "\""
  if !strContains foreign "ALTER TABLE" then
    "ALTER TABLE \"" ++ tableName ++ "\" ADD " ++ foreign
  else foreign

/-- `postgresqlBlueprint.toForeignKeySQL` (mysql.go lines 319-328). -/
def pgToForeignKeySQL (bp : blueprint) : List String :=
  bp.foreigns.map (formatForeignKeySQL bp.tableName)

/-- One ALTER statement of `postgresqlBlueprint.toAlterSQL` for a column
(mysql.go lines 333-345); note the default is rendered with bare `%v`, not
with `formatDefaultValue`. -/
def pgAlterColumnSQL (tableName : String) (column : Column) : String :=
  let columnSQL := "\"" ++ column.name ++ "\" " ++ column.type
  let columnSQL :=
    if !column.nullable && !strContains column.type "SERIAL" then columnSQL ++ " NOT NULL"
    else columnSQL
  let columnSQL :=
    match column.default with
    | some v => columnSQL ++ (" DEFAULT " ++ goFormatValue v)
    | none => columnSQL
  "ALTER TABLE \"" ++ tableName ++ "\" ADD COLUMN " ++ columnSQL

/-- `postgresqlBlueprint.toAlterSQL` (mysql.go lines 330-355): one ADD
COLUMN statement per column, then one ADD index-fragment statement per
index (backticks replaced); the foreign-key list is never consulted. -/
def pgToAlterSQL (bp : blueprint) : List String :=
  bp.columns.map (pgAlterColumnSQL bp.tableName) ++
    bp.indexes.map (fun index =>
      "ALTER TABLE \"" ++ bp.tableName ++ "\" ADD " ++ goReplaceAll index "`" "\"")

/-- The statements `postgresqlProvider.Create` (mysql.go, PostgreSQL part,
lines corresponding to 164-189) emits, in emission order: the CREATE TABLE
statement, then the index statements, then the foreign-key statements. -/
def pgCreateStmts (bp : blueprint) : List String :=
  pgToCreateTableSQL bp :: (pgToIndexSQL bp ++ pgToForeignKeySQL bp)

/-- The statement-execution loop shared by the schema operations: `exec`
models the database handle (`db.Exec`), receiving the zero-based position
of the call and the statement text, returning `some` error or `none` for
success.  The result pairs the ordered trace of statements actually passed
to the handle with the first error (`none` when every statement
succeeded).  This is the Go pattern `for _, sql := range sqls { if _, err
:= db.Exec(sql); err != nil { return err } }`. -/
def execSeq (exec : Nat → String → Option String) : Nat → List String → List String × Option String
  | _, [] => ([], none)
  | i, s :: rest =>
    match exec i s with
    | some e => ([s], some e)
    | none =>
      let r := execSeq exec (i + 1) rest
      (s :: r.1, r.2)

/-- `mysqlProvider.Create` (mysql.go lines 15-22): build the blueprint via
the callback, emit the single CREATE statement, execute it. -/
def mysqlProvider.Create (exec : Nat → String → Option String) (tableName : String)
    (callback : blueprint → blueprint) : List String × Option String :=
  execSeq exec 0 [mysqlToCreateSQL (callback (newBlueprint tableName))]

/-- `mysqlProvider.Table` (mysql.go lines 24-35). -/
def mysqlProvider.Table (exec : Nat → String → Option String) (tableName : String)
    (callback : blueprint → blueprint) : List String × Option String :=
  execSeq exec 0 (mysqlToAlterSQL (callback (newBlueprint tableName)))

/-- `postgresqlProvider.Create` (mysql.go, PostgreSQL part): executes the
CREATE TABLE statement, then each index statement, then each foreign-key
statement, stopping at the first error. -/
def postgresqlProvider.Create (exec : Nat → String → Option String) (tableName : String)
    (callback : blueprint → blueprint) : List String × Option String :=
  execSeq exec 0 (pgCreateStmts (callback (newBlueprint tableName)))

/-- `postgresqlProvider.Table` (mysql.go, PostgreSQL part). -/
def postgresqlProvider.Table (exec : Nat → String → Option String) (tableName : String)
    (callback : blueprint → blueprint) : List String × Option String :=
  execSeq exec 0 (pgToAlterSQL (callback (newBlueprint tableName)))

example : goFields "INDEX a_b_index (a, b)" = ["INDEX", "a_b_index", "(a,", "b)"] := by decide

example : strContains "UNIQUE INDEX a_unique (a)" "INDEX" = true := by decide

example : formatIndexSQL "t" "INDEX a_b_index (a, b)" = "CREATE INDEX a_b_index ON \"t\" (a, b)" := by decide

theorem execSeq_stop (exec : Nat → String → Option String) (i : Nat) (pre : List String)
    (s : String) (post : List String) (e : String)
    (hpre : ∀ j (hj : j < pre.length), exec (i + j) (pre.get ⟨j, hj⟩) = none)
    (hs : exec (i + pre.length) s = some e) :
    execSeq exec i (pre ++ s :: post) = (pre ++ [s], some e) := by
  induction pre generalizing i with
  | nil =>
    have hs0 : exec i s = some e := by simpa using hs
    simp [execSeq, hs0]
  | cons p ps ih =>
    have hp : exec i p = none := by simpa using hpre 0 (by simp)
    have hs1 : exec ((i + 1) + ps.length) s = some e := by
      have harith : i + (p :: ps).length = (i + 1) + ps.length := by simp; omega
      rw [← harith]; exact hs
    have hpre1 : ∀ j (hj : j < ps.length), exec ((i + 1) + j) (ps.get ⟨j, hj⟩) = none := by
      intro j hj
      have h1 := hpre (j + 1) (by simpa using Nat.succ_lt_succ hj)
      have h2 : i + (j + 1) = (i + 1) + j := by omega
      simpa [h2] using h1
    have ihe := ih (i + 1) hpre1 hs1
    simp [execSeq, hp, ihe]

theorem execSeq_ok (exec : Nat → String → Option String) (i : Nat) (ss : List String)
    (h : ∀ j (hj : j < ss.length), exec (i + j) (ss.get ⟨j, hj⟩) = none) :
    execSeq exec i ss = (ss, none) := by
  induction ss generalizing i with
  | nil => simp [execSeq]
  | cons p ps ih =>
    have hp : exec i p = none := by simpa using h 0 (by simp)
    have h1 : ∀ j (hj : j < ps.length), exec ((i + 1) + j) (ps.get ⟨j, hj⟩) = none := by
      intro j hj
      have h2 := h (j + 1) (by simpa using Nat.succ_lt_succ hj)
      have h3 : i + (j + 1) = (i + 1) + j := by omega
      simpa [h3] using h2
    simp [execSeq, hp, ih (i + 1) h1]

/-- C2: each multi-statement schema operation (MySQL `Table`, PostgreSQL
`Create`, PostgreSQL `Table`) passes its emitted statements to the handle
strictly in emission order via the shared execution loop `execSeq`; when the
first `k` statements succeed and statement `k+1` fails with error `e`, the
call trace is exactly the first `k+1` statements in order (nothing after the
failure is executed, and no rollback call is issued) and `e` is the
operation's result; when every statement succeeds, every statement is
executed in order and the result is success. -/
theorem C2_statement_order_stop_on_failure :
    (∀ (exec : Nat → String → Option String) (tableName : String)
        (callback : blueprint → blueprint),
      mysqlProvider.Table exec tableName callback =
        execSeq exec 0 (mysqlToAlterSQL (callback (newBlueprint tableName))))
    ∧ (∀ (exec : Nat → String → Option String) (tableName : String)
        (callback : blueprint → blueprint),
      postgresqlProvider.Create exec tableName callback =
        execSeq exec 0 (pgCreateStmts (callback (newBlueprint tableName))))
    ∧ (∀ (exec : Nat → String → Option String) (tableName : String)
        (callback : blueprint → blueprint),
      postgresqlProvider.Table exec tableName callback =
        execSeq exec 0 (pgToAlterSQL (callback (newBlueprint tableName))))
    ∧ (∀ (exec : Nat → String → Option String) (pre : List String) (s : String)
        (post : List String) (e : String),
      (∀ j (hj : j < pre.length), exec j (pre.get ⟨j, hj⟩) = none) →
      exec pre.length s = some e →
      execSeq exec 0 (pre ++ s :: post) = (pre ++ [s], some e))
    ∧ (∀ (exec : Nat → String → Option String) (ss : List String),
      (∀ j (hj : j < ss.length), exec j (ss.get ⟨j, hj⟩) = none) →
      execSeq exec 0 ss = (ss, none)) := by
  refine ⟨fun _ _ _ => rfl, fun _ _ _ => rfl, fun _ _ _ => rfl, ?_, ?_⟩
  · intro exec pre s post e hpre hs
    exact execSeq_stop exec 0 pre s post e (by simpa using hpre) (by simpa using hs)
  · intro exec ss h
    exact execSeq_ok exec 0 ss (by simpa using h)

/-- Injected handle for the C2 witness: succeeds on call 0, fails on call 1. -/
def c2exec : Nat → String → Option String :=
  fun i _ => if i = 1 then some "boom" else none

/-- Witness for C2: with a handle that fails on the second statement, the
trace is exactly the first two statements and the error is returned. -/
theorem C2_witness :
    execSeq c2exec 0 (["stmt0"] ++ "stmt1" :: ["stmt2"]) = (["stmt0"] ++ ["stmt1"], some "boom") :=
  C2_statement_order_stop_on_failure.2.2.2.1 c2exec ["stmt0"] "stmt1" ["stmt2"] "boom"
    (fun j hj => by
      have hj0 : j = 0 := by simpa using hj
      subst hj0; rfl)
    rfl

/-- The C1 call sequence on a fresh blueprint:
`Foreign("user_id").References("id").On("users").OnDelete("CASCADE")`. -/
def c1Chain : foreignKeyBuilder × blueprint :=
  fkbOnDelete (fkbOn (fkbReferences ((newBlueprint "t").Foreign "user_id") "id") "users") "CASCADE"

/-- C1 counterexample: after the full call sequence the foreign-key list has
TWO fragments, not one — `On` already materializes a fragment without the
ON DELETE clause before `OnDelete` appends the complete one. -/
theorem C1_counterexample :
    c1Chain.2.foreigns =
        ["FOREIGN KEY (user_id) REFERENCES users (id)",
         "FOREIGN KEY (user_id) REFERENCES users (id) ON DELETE CASCADE"] ∧
      ¬ c1Chain.2.foreigns.length = 1 := by
  decide

/-- C1 amended: the call sequence yields exactly two fragments — the one
`On` appends, `FOREIGN KEY (user_id) REFERENCES users (id)`, and the one
`OnDelete` appends, `FOREIGN KEY (user_id) REFERENCES users (id) ON DELETE
CASCADE` — and a subsequent `OnUpdate(a)` appends exactly one additional,
separate fragment, bringing the count to three. -/
theorem C1_amended :
    c1Chain.2.foreigns =
        ["FOREIGN KEY (user_id) REFERENCES users (id)",
         "FOREIGN KEY (user_id) REFERENCES users (id) ON DELETE CASCADE"] ∧
      ∀ a : String, (fkbOnUpdate c1Chain a).2.foreigns.length = 3 := by
  constructor
  · decide
  · intro a
    by_cases ha : a = "" <;>
      simp [c1Chain, fkbOnUpdate, fkbOnDelete, fkbOn, fkbReferences, blueprint.Foreign,
            newBlueprint, foreignKeyBuilder.build, ha]

/-- C10: for `UniqueIndex("a")` on table `t`, the PostgreSQL create path's
index rewrite drops the UNIQUE token and takes the literal word INDEX as the
index name, producing `CREATE INDEX INDEX ON "t" a_unique (a)` with the
synthesized name `a_unique` inside the column-list clause. -/
theorem C10_unique_index_rewrite_mangles :
    ((newBlueprint "t").UniqueIndex ["a"]).indexes = ["UNIQUE INDEX a_unique (a)"] ∧
      pgToIndexSQL ((newBlueprint "t").UniqueIndex ["a"]) =
        ["CREATE INDEX INDEX ON \"t\" a_unique (a)"] := by
  decide

theorem mysqlColumnSQL_eq (c : Column) :
    mysqlColumnSQL c =
      "`" ++ c.name ++ "` " ++ c.type ++
        (if c.nullable then "" else " NOT NULL") ++
        (match c.default with
         | some v => " DEFAULT " ++ goFormatValue v
         | none => "") ++
        (if c.comment = "" then "" else " COMMENT \x27" ++ c.comment ++ "\x27") := by
  cases hn : c.nullable <;> cases hd : c.default <;> by_cases hc : c.comment = "" <;>
    simp [mysqlColumnSQL, hn, hd, hc, String.append_assoc]

theorem pgColumnSQL_eq (c : Column) :
    pgColumnSQL c =
      "\"" ++ c.name ++ "\" " ++ c.type ++
        (if c.nullable = false ∧ strContains c.type "SERIAL" = false then " NOT NULL" else "") ++
        (match c.default with
         | some v => " DEFAULT " ++ formatDefaultValue v
         | none => "") := by
  cases hn : c.nullable <;> cases hs : strContains c.type "SERIAL" <;> cases hd : c.default <;>
    simp [pgColumnSQL, hn, hs, hd, String.append_assoc]

/-- C3: on the alter path of either dialect the emitted statement list is
exactly one ADD COLUMN statement per declared column (in declaration order)
followed by one ADD index-fragment statement per registered index (in
registration order); the blueprint's foreign-key list never influences the
output, no matter what the callback registered there. -/
theorem C3_alter_never_emits_foreign_keys :
    (∀ bp : blueprint,
      mysqlToAlterSQL bp =
        bp.columns.map (mysqlAlterColumnSQL bp.tableName) ++
          bp.indexes.map (fun index => "ALTER TABLE `" ++ bp.tableName ++ "` ADD " ++ index))
    ∧ (∀ (bp : blueprint) (fs : List String),
      mysqlToAlterSQL { bp with foreigns := fs } = mysqlToAlterSQL bp)
    ∧ (∀ bp : blueprint,
      pgToAlterSQL bp =
        bp.columns.map (pgAlterColumnSQL bp.tableName) ++
          bp.indexes.map (fun index =>
            "ALTER TABLE \"" ++ bp.tableName ++ "\" ADD " ++ goReplaceAll index "`" "\""))
    ∧ (∀ (bp : blueprint) (fs : List String),
      pgToAlterSQL { bp with foreigns := fs } = pgToAlterSQL bp) :=
  ⟨fun _ => rfl, fun _ _ => rfl, fun _ => rfl, fun _ _ => rfl⟩

/-- C4: the MySQL create path emits exactly one statement: the CREATE TABLE
envelope around the column clauses (in declaration order), then the index
fragments verbatim, then the foreign-key fragments verbatim, joined with
comma, newline and two-space indent; each column clause is the
backtick-quoted name, the type, then NOT NULL exactly when not nullable,
then DEFAULT with the bare interpolated value exactly when a default is
set, then COMMENT in single quotes exactly when a comment is set. -/
theorem C4_mysql_create_statement_shape :
    (∀ bp : blueprint,
      mysqlToCreateSQL bp =
        "CREATE TABLE `" ++ bp.tableName ++ "` (\n  " ++
          goJoin (bp.columns.map mysqlColumnSQL ++ bp.indexes ++ bp.foreigns) ",\n  " ++
          "\n) ENGINE=InnoDB DEFAULT CHARSET=utf8mb4 COLLATE=utf8mb4_unicode_ci")
    ∧ (∀ c : Column,
      mysqlColumnSQL c =
        "`" ++ c.name ++ "` " ++ c.type ++
          (if c.nullable then "" else " NOT NULL") ++
          (match c.default with
           | some v => " DEFAULT " ++ goFormatValue v
           | none => "") ++
          (if c.comment = "" then "" else " COMMENT \x27" ++ c.comment ++ "\x27"))
    ∧ (∀ (exec : Nat → String → Option String) (tableName : String)
        (callback : blueprint → blueprint),
      mysqlProvider.Create exec tableName callback =
        execSeq exec 0 [mysqlToCreateSQL (callback (newBlueprint tableName))]) :=
  ⟨fun _ => rfl, mysqlColumnSQL_eq, fun _ _ _ => rfl⟩

/-- C5: in the PostgreSQL CREATE TABLE rendering, a column whose type
literal contains "SERIAL" (as produced by `Serial`) never receives a NOT
NULL clause — its clause is the same for every value of its nullability
flag — and a column whose type does not contain "SERIAL" receives NOT NULL
exactly when its nullable flag is false. -/
theorem C5_serial_suppresses_not_null :
    (∀ c : Column, strContains c.type "SERIAL" = true →
      ∀ b1 b2 : Bool,
        pgColumnSQL { c with nullable := b1 } = pgColumnSQL { c with nullable := b2 })
    ∧ (∀ c : Column, strContains c.type "SERIAL" = false →
      pgColumnSQL c =
        "\"" ++ c.name ++ "\" " ++ c.type ++
          (if c.nullable then "" else " NOT NULL") ++
          (match c.default with
           | some v => " DEFAULT " ++ formatDefaultValue v
           | none => ""))
    ∧ strContains "SERIAL" "SERIAL" = true
    ∧ (∀ (b : blueprint) (name : String),
      (postgresqlBlueprint.Serial b name).columns =
        b.columns ++ [{ name := name, type := "SERIAL", length := none, nullable := false,
                        default := none, primary := false, unique := false,
                        comment := "", after := "" }]) := by
  refine ⟨?_, ?_, by decide, fun _ _ => rfl⟩
  · intro c hser b1 b2
    simp [pgColumnSQL, hser]
  · intro c hser
    have h := pgColumnSQL_eq c
    rw [h]
    cases hn : c.nullable <;> simp [hser, hn]

/-- Witness for C5 at the concrete column `Serial("id")`: the clause is
identical with the nullable flag false and true, and a non-SERIAL INT
column gets NOT NULL when not nullable. -/
theorem C5_witness :
    pgColumnSQL { name := "id", type := "SERIAL", length := none, nullable := false,
                  default := none, primary := false, unique := false,
                  comment := "", after := "" } =
      pgColumnSQL { name := "id", type := "SERIAL", length := none, nullable := true,
                    default := none, primary := false, unique := false,
                    comment := "", after := "" } :=
  C5_serial_suppresses_not_null.1
    { name := "id", type := "SERIAL", length := none, nullable := false,
      default := none, primary := false, unique := false, comment := "", after := "" }
    (by decide) false true

theorem strFoldTwo (b c d : String) (h : b ++ c = d) (X : String) : X ++ b ++ c = X ++ d := by
  rw [String.append_assoc, h]

/-- C6: the PostgreSQL create path's per-index rewrite first replaces
backticks with double quotes, then — exactly when the fragment contains
"INDEX", does not contain "CREATE", and splits into at least three
whitespace tokens — returns `CREATE INDEX <second token> ON "<table>"
<remaining tokens joined by single spaces>`; every other fragment is
returned as the backtick-replaced text, unmodified; in particular
`Index("a","b")` on table `t` becomes `CREATE INDEX a_b_index ON "t" (a, b)`
and a PRIMARY KEY fragment passes through untouched. -/
theorem C6_format_index_rewrite :
    (∀ tableName index : String,
      formatIndexSQL tableName index =
        (let r := goReplaceAll index "`" "\""
         if strContains r "INDEX" = true ∧ strContains r "CREATE" = false ∧
             3 ≤ (goFields r).length then
           "CREATE INDEX " ++ ((goFields r).drop 1).headD "" ++ " ON \"" ++ tableName ++ "\" " ++
             goJoin ((goFields r).drop 2) " "
         else r))
    ∧ pgToIndexSQL ((newBlueprint "t").Index ["a", "b"]) =
        ["CREATE INDEX a_b_index ON \"t\" (a, b)"]
    ∧ formatIndexSQL "t" "PRIMARY KEY (a, b)" = "PRIMARY KEY (a, b)" := by
  refine ⟨?_, by decide, by decide⟩
  intro tableName index
  simp only [formatIndexSQL]
  cases h1 : strContains (goReplaceAll index "`" "\"") "INDEX" <;>
    cases h2 : strContains (goReplaceAll index "`" "\"") "CREATE" <;>
      rcases hf : goFields (goReplaceAll index "`" "\"") with _ | ⟨p0, _ | ⟨p1, _ | ⟨p2, ps⟩⟩⟩ <;>
        simp [h1, h2, hf]

/-- C7: no fragment is appended while the foreign table or the referenced
column is still empty — `References` never materializes at all, and
`OnDelete`/`OnUpdate` (and `build` itself) are no-ops while either field is
empty — and every fragment `build` ever appends begins with
`FOREIGN KEY (<localColumn>) REFERENCES <foreignTable> (<foreignColumn>)`. -/
theorem C7_no_premature_materialization :
    (∀ (s : foreignKeyBuilder × blueprint) (column : String),
      (fkbReferences s column).2 = s.2)
    ∧ (∀ (s : foreignKeyBuilder × blueprint) (action : String),
      s.1.foreignTable = "" ∨ s.1.foreignColumn = "" → (fkbOnDelete s action).2 = s.2)
    ∧ (∀ (s : foreignKeyBuilder × blueprint) (action : String),
      s.1.foreignTable = "" ∨ s.1.foreignColumn = "" → (fkbOnUpdate s action).2 = s.2)
    ∧ (∀ (f : foreignKeyBuilder) (b : blueprint),
      f.foreignTable = "" ∨ f.foreignColumn = "" → f.build b = b)
    ∧ (∀ (f : foreignKeyBuilder) (b : blueprint),
      f.build b = b ∨
        ∃ rest, (f.build b).foreigns =
          b.foreigns ++ ["FOREIGN KEY (" ++ f.localColumn ++ ") REFERENCES " ++
            f.foreignTable ++ " (" ++ f.foreignColumn ++ ")" ++ rest]) := by
  refine ⟨fun _ _ => rfl, ?_, ?_, ?_, ?_⟩
  · intro s action h
    rcases h with h | h <;> simp [fkbOnDelete, foreignKeyBuilder.build, h]
  · intro s action h
    rcases h with h | h <;> simp [fkbOnUpdate, foreignKeyBuilder.build, h]
  · intro f b h
    rcases h with h | h <;> simp [foreignKeyBuilder.build, h]
  · intro f b
    by_cases hcond : f.foreignTable = "" ∨ f.foreignColumn = ""
    · left
      simp [foreignKeyBuilder.build, hcond]
    · right
      by_cases hod : f.onDelete = "" <;> by_cases hou : f.onUpdate = ""
      · refine ⟨"", ?_⟩
        simp [foreignKeyBuilder.build, hcond, hod, hou, goJoin, ← String.append_assoc,
              strFoldTwo ")" " " ") " rfl, strFoldTwo ") " "REFERENCES " ") REFERENCES " rfl]
      · refine ⟨" ON UPDATE " ++ f.onUpdate, ?_⟩
        simp [foreignKeyBuilder.build, hcond, hod, hou, goJoin, ← String.append_assoc,
              strFoldTwo ")" " " ") " rfl, strFoldTwo ") " "REFERENCES " ") REFERENCES " rfl,
              strFoldTwo ") " "ON UPDATE " ") ON UPDATE " rfl,
              strFoldTwo ")" " ON UPDATE " ") ON UPDATE " rfl]
      · refine ⟨" ON DELETE " ++ f.onDelete, ?_⟩
        simp [foreignKeyBuilder.build, hcond, hod, hou, goJoin, ← String.append_assoc,
              strFoldTwo ")" " " ") " rfl, strFoldTwo ") " "REFERENCES " ") REFERENCES " rfl,
              strFoldTwo ") " "ON DELETE " ") ON DELETE " rfl,
              strFoldTwo ")" " ON DELETE " ") ON DELETE " rfl]
      · refine ⟨" ON DELETE " ++ f.onDelete ++ " ON UPDATE " ++ f.onUpdate, ?_⟩
        simp [foreignKeyBuilder.build, hcond, hod, hou, goJoin, ← String.append_assoc,
              strFoldTwo ")" " " ") " rfl, strFoldTwo ") " "REFERENCES " ") REFERENCES " rfl,
              strFoldTwo ") " "ON DELETE " ") ON DELETE " rfl,
              strFoldTwo ")" " ON DELETE " ") ON DELETE " rfl,
              strFoldTwo " " "ON UPDATE " " ON UPDATE " rfl]

/-- Witness for C7: `OnDelete` called when only the local column and the
referenced column are known (no `On` yet, foreign table empty) leaves the
blueprint unchanged. -/
theorem C7_witness :
    (fkbOnDelete ((newBlueprint "t").Foreign "user_id") "CASCADE").2 =
      ((newBlueprint "t").Foreign "user_id").2 :=
  C7_no_premature_materialization.2.1 ((newBlueprint "t").Foreign "user_id") "CASCADE"
    (Or.inl rfl)

/-- C8: for every non-empty column list, `Index`, `UniqueIndex` and
`FullTextIndex` each append exactly one fragment whose synthesized index
name is the column names joined with underscores plus the suffix `_index`,
`_unique`, `_fulltext` respectively, and `Primary` appends exactly one
PRIMARY KEY fragment with no synthesized name; in particular
`Index("a","b")` yields the name `a_b_index` and `UniqueIndex("a")` yields
`a_unique`. -/
theorem C8_index_name_synthesis :
    (∀ cols : List String, cols ≠ [] → ∀ bp : blueprint,
      (bp.Index cols).indexes =
          bp.indexes ++
            ["INDEX " ++ (goJoin cols "_" ++ "_index") ++ " (" ++ goJoin cols ", " ++ ")"] ∧
        (bp.UniqueIndex cols).indexes =
          bp.indexes ++
            ["UNIQUE INDEX " ++ (goJoin cols "_" ++ "_unique") ++ " (" ++ goJoin cols ", " ++ ")"] ∧
        (bp.FullTextIndex cols).indexes =
          bp.indexes ++
            ["FULLTEXT INDEX " ++ (goJoin cols "_" ++ "_fulltext") ++ " (" ++
              goJoin cols ", " ++ ")"] ∧
        (bp.Primary cols).indexes =
          bp.indexes ++ ["PRIMARY KEY (" ++ goJoin cols ", " ++ ")"])
    ∧ ((newBlueprint "t").Index ["a", "b"]).indexes = ["INDEX a_b_index (a, b)"]
    ∧ ((newBlueprint "t").UniqueIndex ["a"]).indexes = ["UNIQUE INDEX a_unique (a)"] :=
  ⟨fun _ _ _ => ⟨rfl, rfl, rfl, rfl⟩, by decide, by decide⟩

/-- Witness for C8 at the non-empty column list `["a", "b"]`. -/
theorem C8_witness :
    ((newBlueprint "t").Index ["a", "b"]).indexes =
      (newBlueprint "t").indexes ++
        ["INDEX " ++ (goJoin ["a", "b"] "_" ++ "_index") ++ " (" ++
          goJoin ["a", "b"] ", " ++ ")"] :=
  (C8_index_name_synthesis.1 ["a", "b"] (by decide) (newBlueprint "t")).1

/-- Agreement on every Column field except the `primary` and `unique`
flags, which only `columnBuilder.Primary` and `columnBuilder.Unique` set. -/
def sameExceptFlags (c1 c2 : Column) : Prop :=
  c1.name = c2.name ∧ c1.type = c2.type ∧ c1.length = c2.length ∧
    c1.nullable = c2.nullable ∧ c1.default = c2.default ∧
    c1.comment = c2.comment ∧ c1.after = c2.after

theorem mysqlColumnSQL_flag_congr {c1 c2 : Column} (h : sameExceptFlags c1 c2) :
    mysqlColumnSQL c1 = mysqlColumnSQL c2 := by
  obtain ⟨h1, h2, h3, h4, h5, h6, h7⟩ := h
  simp [mysqlColumnSQL, h1, h2, h4, h5, h6]

theorem mysqlAlterColumnSQL_flag_congr (t : String) {c1 c2 : Column}
    (h : sameExceptFlags c1 c2) :
    mysqlAlterColumnSQL t c1 = mysqlAlterColumnSQL t c2 := by
  obtain ⟨h1, h2, h3, h4, h5, h6, h7⟩ := h
  simp [mysqlAlterColumnSQL, h1, h2, h4, h5, h7]

theorem pgColumnSQL_flag_congr {c1 c2 : Column} (h : sameExceptFlags c1 c2) :
    pgColumnSQL c1 = pgColumnSQL c2 := by
  obtain ⟨h1, h2, h3, h4, h5, h6, h7⟩ := h
  simp [pgColumnSQL, h1, h2, h4, h5]

theorem pgAlterColumnSQL_flag_congr (t : String) {c1 c2 : Column}
    (h : sameExceptFlags c1 c2) :
    pgAlterColumnSQL t c1 = pgAlterColumnSQL t c2 := by
  obtain ⟨h1, h2, h3, h4, h5, h6, h7⟩ := h
  simp [pgAlterColumnSQL, h1, h2, h4, h5]

theorem map_eq_of_flag_forall2 (f : Column → String)
    (hf : ∀ a b : Column, sameExceptFlags a b → f a = f b)
    {l1 l2 : List Column} (h : List.Forall₂ sameExceptFlags l1 l2) :
    l1.map f = l2.map f := by
  induction h with
  | nil => rfl
  | cons hab _ ih => simp [ih, hf _ _ hab]

/-- C9: the `Unique()` and `Primary()` column modifiers only set the
`unique` and `primary` flags, and no renderer reads those flags: two
blueprints that agree on everything except those two flags on their columns
produce character-for-character identical output on the MySQL create and
alter paths and the PostgreSQL create (all three statement groups) and
alter paths. -/
theorem C9_unique_primary_flags_unread :
    (∀ c : Column,
      sameExceptFlags c (columnBuilder.Unique c) ∧ sameExceptFlags c (columnBuilder.Primary c))
    ∧ (∀ bp1 bp2 : blueprint,
      bp1.tableName = bp2.tableName → bp1.indexes = bp2.indexes →
      bp1.foreigns = bp2.foreigns →
      List.Forall₂ sameExceptFlags bp1.columns bp2.columns →
      mysqlToCreateSQL bp1 = mysqlToCreateSQL bp2 ∧
        mysqlToAlterSQL bp1 = mysqlToAlterSQL bp2 ∧
        pgCreateStmts bp1 = pgCreateStmts bp2 ∧
        pgToAlterSQL bp1 = pgToAlterSQL bp2) := by
  constructor
  · intro c
    exact ⟨⟨rfl, rfl, rfl, rfl, rfl, rfl, rfl⟩, ⟨rfl, rfl, rfl, rfl, rfl, rfl, rfl⟩⟩
  · intro bp1 bp2 ht hi hf hcols
    have hmc := map_eq_of_flag_forall2 mysqlColumnSQL (fun _ _ => mysqlColumnSQL_flag_congr) hcols
    have hma := map_eq_of_flag_forall2 (mysqlAlterColumnSQL bp1.tableName)
      (fun _ _ => mysqlAlterColumnSQL_flag_congr bp1.tableName) hcols
    have hpc := map_eq_of_flag_forall2 pgColumnSQL (fun _ _ => pgColumnSQL_flag_congr) hcols
    have hpa := map_eq_of_flag_forall2 (pgAlterColumnSQL bp1.tableName)
      (fun _ _ => pgAlterColumnSQL_flag_congr bp1.tableName) hcols
    refine ⟨?_, ?_, ?_, ?_⟩
    · simp [mysqlToCreateSQL, ht, hi, hf, hmc]
    · simp [mysqlToAlterSQL, ht, hi, hmc, hma]
      rw [← ht]; exact hma
    · simp [pgCreateStmts, pgToCreateTableSQL, pgToIndexSQL, pgToForeignKeySQL, ht, hi, hf, hpc]
    · simp [pgToAlterSQL, ht, hi]
      rw [← ht]; exact hpa

/-- Witness for C9: two one-column blueprints differing only in the
`unique` and `primary` flags render identically on all four paths. -/
theorem C9_witness :
    mysqlToCreateSQL
        { tableName := "t",
          columns := [{ name := "a", type := "INT", length := none, nullable := false,
                        default := none, primary := false, unique := false,
                        comment := "", after := "" }],
          indexes := [], foreigns := [] } =
      mysqlToCreateSQL
        { tableName := "t",
          columns := [{ name := "a", type := "INT", length := none, nullable := false,
                        default := none, primary := true, unique := true,
                        comment := "", after := "" }],
          indexes := [], foreigns := [] } :=
  (C9_unique_primary_flags_unread.2
    { tableName := "t",
      columns := [{ name := "a", type := "INT", length := none, nullable := false,
                    default := none, primary := false, unique := false,
                    comment := "", after := "" }],
      indexes := [], foreigns := [] }
    { tableName := "t",
      columns := [{ name := "a", type := "INT", length := none, nullable := false,
                    default := none, primary := true, unique := true,
                    comment := "", after := "" }],
      indexes := [], foreigns := [] }
    rfl rfl rfl
    (List.Forall₂.cons ⟨rfl, rfl, rfl, rfl, rfl, rfl, rfl⟩ List.Forall₂.nil)).1
